import Mathlib

/-!
Shallow embedding of the example components of the `react-study-notes`
repository, together with theorems settling the frozen claims about them.

Conventions of the embedding:
* a component's `useState` variables become the fields of a Lean structure,
  and each event handler becomes a pure function from (the handler's inputs
  and) the old state to the new state;
* JavaScript arrays whose slots can hold `undefined` are embedded as
  `List (Option α)`, with `none` standing for `undefined`; ordinary arrays
  whose slots are always defined are embedded as `List α`;
* out-of-bounds reads (`undefined`) and the growing write `arr[len] = v`
  of JavaScript arrays are modelled by `jsGetI` / `jsSetI` below;
* the value carried by a DOM change event (`event.target.value`) becomes an
  explicit `String` argument of the handler.
-/

namespace RSN

/-! ## A model of JavaScript array indexing

JavaScript array reads return `undefined` out of bounds; writes at an index
`≥ length` extend the array, filling any gap with holes (read back as
`undefined`).  Indices are numbers, so they are embedded as `Int` (the
to-do component compares an index against `-1`). -/

/-- Read `xs[i]` from a JavaScript array: the stored value if `0 ≤ i < length`
(a stored `none` is a stored `undefined`), and `undefined` (`none`) otherwise. -/
def jsGetI (xs : List (Option α)) (i : Int) : Option α :=
  if 0 ≤ i then (xs[i.toNat]?).getD none else none

/-- Write `xs[i] = v` for a natural index: in bounds it replaces the slot,
at or past the end it pads with holes and appends. -/
def jsSetNat (xs : List (Option α)) (i : Nat) (v : Option α) : List (Option α) :=
  if i < xs.length then xs.set i v
  else xs ++ List.replicate (i - xs.length) none ++ [v]

/-- Write `xs[i] = v` for an integer index.  A negative index creates a plain
object property and leaves the array elements unchanged. -/
def jsSetI (xs : List (Option α)) (i : Int) (v : Option α) : List (Option α) :=
  if 0 ≤ i then jsSetNat xs i.toNat v else xs

/-! ## A model of JavaScript string primitives -/

/-- The white-space characters `String.prototype.trim` strips: tab, line
feed, vertical tab, form feed, carriage return, space, no-break space and
the BOM (the astral space separators are outside the fragment the examples
exercise). -/
def isJsWhitespace (c : Char) : Bool :=
  c.toNat = 9 || c.toNat = 10 || c.toNat = 11 || c.toNat = 12 ||
  c.toNat = 13 || c.toNat = 32 || c.toNat = 160 || c.toNat = 65279

/-- JavaScript's `s.trim()`: strip white space from both ends. -/
def jsTrim (s : String) : String :=
  ⟨(((s.data.dropWhile isJsWhitespace).reverse.dropWhile isJsWhitespace).reverse)⟩

/-- Value of a nonempty all-digit character list, most significant first,
accumulated left to right; `none` as soon as a non-digit appears. -/
def decDigitsValAux (acc : Nat) : List Char → Option Nat
  | [] => some acc
  | c :: cs => if c.isDigit then decDigitsValAux (10 * acc + (c.toNat - 48)) cs else none

/-- Value of a nonempty all-digit character list; `none` when empty or when a
non-digit appears. -/
def decDigitsVal : List Char → Option Nat
  | [] => none
  | cs => decDigitsValAux 0 cs

/-- Model of the JavaScript `Number(string)` coercion on the fragment the
examples feed it (optionally signed decimal numerals surrounded by white
space; the empty or all-white-space string gives `0`).  `NaN` and fractional
values are outside the fragment the components exercise, the inputs being
`type="number"` year and quantity fields. -/
def jsNumber (s : String) : Int :=
  match (jsTrim s).data with
  | [] => 0
  | '-' :: cs => -(((decDigitsVal cs).getD 0 : Nat) : Int)
  | '+' :: cs => (((decDigitsVal cs).getD 0 : Nat) : Int)
  | cs => (((decDigitsVal cs).getD 0 : Nat) : Int)

/-! ## The to-do list component (`ToDoList`)

State: `tasks : string[]` and `newTask : string`.  `jsTrim` stands for
JavaScript's `String.prototype.trim`. -/

/-- The state of the `ToDoList` component. -/
structure ToDoState where
  tasks : List String
  newTask : String
deriving DecidableEq, Repr

/-- `handleInputChange`: `setNewTask(event.target.value)`. -/
def handleInputChange (v : String) (s : ToDoState) : ToDoState :=
  { s with newTask := v }

/-- `handleAddTask`: when `newTask.trim()` is nonempty, append the trimmed
task and clear the input; otherwise do nothing. -/
def handleAddTask (s : ToDoState) : ToDoState :=
  if jsTrim s.newTask ≠ "" then
    { tasks := s.tasks ++ [jsTrim s.newTask], newTask := "" }
  else s

/-- A model of `Array.prototype.filter` with the index callback, carrying the
current index through the traversal. -/
def filterIdxAux (p : Nat → α → Bool) : Nat → List α → List α
  | _, [] => []
  | k, x :: xs => if p k x then x :: filterIdxAux p (k + 1) xs else filterIdxAux p (k + 1) xs

/-- `xs.filter((x, i) => p(i, x))`. -/
def filterIdx (p : Nat → α → Bool) (xs : List α) : List α :=
  filterIdxAux p 0 xs

/-- `handleDeleteTask`: `tasks.filter((_, i) => i !== index)`. -/
def handleDeleteTask (tasks : List String) (index : Nat) : List String :=
  filterIdx (fun i _ => i != index) tasks

/-- `moveTaskUp`: return early when `index === 0`; otherwise copy the array
and perform the destructuring swap
`[u[index-1], u[index]] = [u[index], u[index-1]]` (right-hand side evaluated
first, then the two writes, left to right). -/
def moveTaskUp (tasks : List (Option α)) (index : Int) : List (Option α) :=
  if index = 0 then tasks
  else
    jsSetI (jsSetI tasks (index - 1) (jsGetI tasks index)) index (jsGetI tasks (index - 1))

/-- `moveTaskDown`: return early when `index === -1`; otherwise copy the array
and perform the destructuring swap
`[u[index+1], u[index]] = [u[index], u[index+1]]` (right-hand side evaluated
first, then the two writes, left to right). -/
def moveTaskDown (tasks : List (Option α)) (index : Int) : List (Option α) :=
  if index = -1 then tasks
  else
    jsSetI (jsSetI tasks (index + 1) (jsGetI tasks index)) index (jsGetI tasks (index + 1))

/-! ## The car-details component (file `part_004`)

State: a single `Car` object; each handler spreads the old object and
replaces one field via a functional update. -/

/-- The `Car` interface: `year : number`, `make : string`, `model : string`. -/
structure Car where
  year : Int
  make : String
  model : String
deriving DecidableEq, Repr

/-- `handleYearChange`: `setCar(car => (spread car, year: Number(event.target.value)))`. -/
def handleYearChange (v : String) (car : Car) : Car :=
  { car with year := jsNumber v }

/-- `handleMakeChange`: `setCar(car => (spread car, make: String(event.target.value)))`;
`String` applied to a string is the identity. -/
def handleMakeChange (v : String) (car : Car) : Car :=
  { car with make := v }

/-- `handleModelChange`: `setCar(car => (spread car, model: String(event.target.value)))`. -/
def handleModelChange (v : String) (car : Car) : Car :=
  { car with model := v }

/-! ## The car-inventory component (file `part_002`) -/

/-- The state of the car-inventory component: the list of cars and the three
form fields. -/
structure CarInvState where
  cars : List Car
  carYear : Int
  carMake : String
  carModel : String
deriving DecidableEq, Repr

/-- `handleAddCar`: build `newCar` from the three form fields, append it with
the updater `setCars(c => [...c, newCar])`, then reset the fields —
`carYear` to `new Date().getFullYear()` (passed in here as `currentYear`,
the clock being outside the embedding), `carMake` and `carModel` to `""`. -/
def handleAddCar (currentYear : Int) (s : CarInvState) : CarInvState :=
  let newCar : Car := { year := s.carYear, make := s.carMake, model := s.carModel }
  { cars := s.cars ++ [newCar]
    carYear := currentYear
    carMake := ""
    carModel := "" }

/-- `handleRemoveCar`: `cars.filter((_, i) => i !== index)`. -/
def handleRemoveCar (cars : List Car) (index : Nat) : List Car :=
  filterIdx (fun i _ => i != index) cars

/-- `handleCarYearChange`: `setCarYear(Number(event.target.value))`. -/
def handleCarYearChange (v : String) (s : CarInvState) : CarInvState :=
  { s with carYear := jsNumber v }

/-- `handleCarMakeChange`: `setCarMake(event.target.value)`. -/
def handleCarMakeChange (v : String) (s : CarInvState) : CarInvState :=
  { s with carMake := v }

/-- `handleCarModelChange`: `setCarModel(event.target.value)`. -/
def handleCarModelChange (v : String) (s : CarInvState) : CarInvState :=
  { s with carModel := v }

/-! ## The food-list component (`12. Update Arrays in State`) -/

/-- `handleRemoveFood`: `setFoods(f => f.filter((_, i) => i !== index))`. -/
def handleRemoveFood (food : List String) (index : Nat) : List String :=
  filterIdx (fun i _ => i != index) food

/-! ## The two counters

React batches state updates: each `setCount` call enqueues either a plain
value or an updater function, and the queue is folded over the state when the
re-render commits.  An updater receives the prior value; a plain value
discards it. -/

/-- One queued `setCount` argument: a plain value or an updater function. -/
inductive CountUpdate where
  | value (n : Int)
  | updater (f : Int → Int)

/-- Apply one queued update to the current count. -/
def applyUpdate (c : Int) : CountUpdate → Int
  | .value n => n
  | .updater f => f c

/-- Fold a queue of scheduled updates over the count, in order. -/
def applyQueue (c : Int) (q : List CountUpdate) : Int :=
  q.foldl applyUpdate c

/-- `handleIncrement` of the function-component counter (file `part_000`):
`setCount(c => c + 1)` — it enqueues an updater and reads no snapshot. -/
def handleIncrement : CountUpdate :=
  .updater (fun c => c + 1)

namespace Counter

/-- `increment` of the `Counter` component (file `part_012`):
`setCount(count + 1)` — it enqueues the plain value computed from the
`count` snapshot of the render that created the handler. -/
def increment (count : Int) : CountUpdate :=
  .value (count + 1)

end Counter

/-! ## Rendered form inputs (controlled vs. uncontrolled)

A rendered input is embedded as the binding of its `value` / `checked`
attribute (as a function of the component state at render time) together
with its `onChange` handler, if any.  `σ` is the component's state type. -/

/-- What a rendered input's display is bound to: a string-state `value`, a
number-state `value`, a `checked` flag (radio), or nothing at all. -/
inductive InputBinding where
  | strVal (v : String)
  | numVal (n : Int)
  | checkedFlag (b : Bool)
  | unbound
deriving DecidableEq, Repr

/-- A rendered form input: its display binding and its change handler (which
receives `event.target.value`), when it has one. -/
structure RenderedControl (σ : Type) where
  binding : InputBinding
  onChange : Option (String → σ → σ)

/-- An input is controlled when its display is bound to state and it has a
change handler. -/
def RenderedControl.controlled (c : RenderedControl σ) : Bool :=
  match c.binding with
  | .unbound => false
  | _ => c.onChange.isSome

/-! ### The order form (`8. onChange event handler`) -/

/-- The state of the order-form component. -/
structure OrderFormState where
  name : String
  quantity : Int
  comment : String
  payment : String
  shipping : String
deriving DecidableEq, Repr

/-- `handleNameChange`: `setName(event.target.value)`. -/
def handleNameChange (v : String) (s : OrderFormState) : OrderFormState :=
  { s with name := v }

/-- `handleQuantityChange`: `setQuantity(Number(event.target.value))`. -/
def handleQuantityChange (v : String) (s : OrderFormState) : OrderFormState :=
  { s with quantity := jsNumber v }

/-- `handleCommentChange`: `setComment(event.target.value)`. -/
def handleCommentChange (v : String) (s : OrderFormState) : OrderFormState :=
  { s with comment := v }

/-- `handlePaymentChange`: `setPayment(event.target.value)`. -/
def handlePaymentChange (v : String) (s : OrderFormState) : OrderFormState :=
  { s with payment := v }

/-- `handleShippingChange`: `setShipping(event.target.value)`; the radios
carry `value="Pickup"` / `value="Delivery"`. -/
def handleShippingChange (v : String) (s : OrderFormState) : OrderFormState :=
  { s with shipping := v }

/-- The form inputs the order-form component renders, in source order: the
name input, the quantity input, the comment textarea, the payment select,
and the two shipping radios with their `checked` comparisons. -/
def renderOrderForm (s : OrderFormState) : List (RenderedControl OrderFormState) :=
  [ { binding := .strVal s.name, onChange := some handleNameChange },
    { binding := .numVal s.quantity, onChange := some handleQuantityChange },
    { binding := .strVal s.comment, onChange := some handleCommentChange },
    { binding := .strVal s.payment, onChange := some handlePaymentChange },
    { binding := .checkedFlag (s.shipping == "Pickup"), onChange := some handleShippingChange },
    { binding := .checkedFlag (s.shipping == "Delivery"), onChange := some handleShippingChange } ]

/-- The form inputs the `ToDoList` component renders: the single new-task
input, `value` bound to `newTask` with `handleInputChange`. -/
def renderToDoInputs (s : ToDoState) : List (RenderedControl ToDoState) :=
  [ { binding := .strVal s.newTask, onChange := some handleInputChange } ]

/-- The form inputs the food-list component renders: the `foodInput` text
input carries no `value` and no `onChange` attribute — `handleAddFood` reads
it and clears it through `document.getElementById` instead. -/
def renderFoodInputs (_food : List String) : List (RenderedControl (List String)) :=
  [ { binding := .unbound, onChange := none } ]

/-- The form inputs the car-details component (`part_004`) renders, in
source order: the year number input and the make and model text inputs,
each bound to a field of the `Car` state. -/
def renderCarDetailsInputs (car : Car) : List (RenderedControl Car) :=
  [ { binding := .numVal car.year, onChange := some handleYearChange },
    { binding := .strVal car.make, onChange := some handleMakeChange },
    { binding := .strVal car.model, onChange := some handleModelChange } ]

/-- The form inputs the car-inventory component (`part_002`) renders, in
source order: the year number input and the make and model text inputs,
each bound to a form field of the state. -/
def renderCarInvInputs (s : CarInvState) : List (RenderedControl CarInvState) :=
  [ { binding := .numVal s.carYear, onChange := some handleCarYearChange },
    { binding := .strVal s.carMake, onChange := some handleCarMakeChange },
    { binding := .strVal s.carModel, onChange := some handleCarModelChange } ]

/-- `handleColorChange` of the `ColorPicker` component (file `part_010`):
`setColor(event.target.value)`. -/
def handleColorChange (v : String) (_color : String) : String :=
  v

/-- The single input the `ColorPicker` renders: the color input with
`value` bound to the `color` state and `handleColorChange` as handler. -/
def renderColorPicker (color : String) : List (RenderedControl String) :=
  [ { binding := .strVal color, onChange := some handleColorChange } ]

/-! ### List rendering and keys (`5. Render Lists`) -/

/-- The `FoodItem` type of `List.tsx`. -/
structure FoodItem where
  id : Int
  name : String
  calories : Int
deriving DecidableEq, Repr

/-- The keyed list items `List.tsx` renders:
`items.map(item => li key=item.id ...)` — each item paired with its key. -/
def listKeyedItems (items : List FoodItem) : List (Int × FoodItem) :=
  items.map (fun item => (item.id, item))

/-- The `fruits` array of the accompanying `App`. -/
def fruits : List FoodItem :=
  [ { id := 1, name := "Apple", calories := 95 },
    { id := 2, name := "Banana", calories := 105 },
    { id := 3, name := "Cherry", calories := 50 },
    { id := 4, name := "Date", calories := 20 } ]

/-- The `groceries` array of the accompanying `App`. -/
def groceries : List FoodItem :=
  [ { id := 1, name := "Bread", calories := 80 },
    { id := 2, name := "Milk", calories := 150 },
    { id := 3, name := "Eggs", calories := 70 } ]

/-- The keyed list items `ToDoList` renders:
`tasks.map((task, index) => li key=index ...)` — each task paired with its
positional key. -/
def toDoKeyedItems (tasks : List String) : List (Nat × String) :=
  tasks.enum

/-- The keyed list items the car-inventory component (`part_002`) renders:
`cars.map((car, index) => li key=index ...)` — each car paired with its
positional key. -/
def carKeyedItems (cars : List Car) : List (Nat × Car) :=
  cars.enum

/-- The keyed list items the food-list component renders:
`food.map((item, index) => li key=index ...)` — each item paired with its
positional key. -/
def foodKeyedItems (food : List String) : List (Nat × String) :=
  food.enum

/-! ## The window-size effect (`15. useEffect hook`, example 2)

The DOM keeps, per target, a list of registered listeners keyed by event type
and handler identity; `addEventListener` is a no-op when the same
(type, handler) pair is already registered, and `removeEventListener`
removes the matching registration. -/

/-- One registered listener: the event type and the identity of the handler
function. -/
structure Listener where
  event : String
  handlerId : String
deriving DecidableEq, Repr

/-- `target.addEventListener(ev, h)`: register the pair unless it is already
registered. -/
def addEventListener (l : Listener) (ls : List Listener) : List Listener :=
  if l ∈ ls then ls else ls ++ [l]

/-- `target.removeEventListener(ev, h)`: drop the matching registration. -/
def removeEventListener (l : Listener) (ls : List Listener) : List Listener :=
  ls.filter (fun x => x ≠ l)

/-- The listener the component registers: `('resize', handleResize)`. -/
def resizeListener : Listener :=
  { event := "resize", handlerId := "handleResize" }

/-- The effect body: `window.addEventListener('resize', handleResize)`. -/
def windowSizeEffect (ls : List Listener) : List Listener :=
  addEventListener resizeListener ls

/-- The effect's cleanup:
`window.removeEventListener('resize', handleResize)`. -/
def windowSizeCleanup (ls : List Listener) : List Listener :=
  removeEventListener resizeListener ls

/-! ## Helper lemmas -/

/-- Filtering out one index, starting the count at `k`, erases position
`i - k` (and does nothing when the count already passed `i`). -/
theorem filterIdxAux_ne_eq (i : Nat) (xs : List α) :
    ∀ k : Nat, filterIdxAux (fun j _ => j != i) k xs =
      if i < k then xs else xs.eraseIdx (i - k) := by
  induction xs with
  | nil => intro k; simp [filterIdxAux]
  | cons x xs ih =>
    intro k
    by_cases hk : k = i
    · have h1 : i < i + 1 := by omega
      have h2 : ¬ i < k := by omega
      have h3 : i - k = 0 := by omega
      simp [filterIdxAux, hk, ih, h1, h2, h3]
    · have hb : (k != i) = true := by simpa using hk
      simp only [filterIdxAux, hb, if_true]
      rw [ih (k + 1)]
      rcases Nat.lt_or_ge i k with hlt | hge
      · have h1 : i < k + 1 := Nat.lt_succ_of_lt hlt
        simp [hlt, h1]
      · have h1 : ¬ i < k + 1 := by omega
        have h2 : ¬ i < k := by omega
        have h3 : i - k = (i - (k + 1)) + 1 := by omega
        simp only [h1, h2, if_false]
        rw [h3, List.eraseIdx_cons_succ]

/-- `filterIdx` with the `i !== index` callback is positional removal. -/
theorem filterIdx_ne_eq_eraseIdx (i : Nat) (xs : List α) :
    filterIdx (fun j _ => j != i) xs = xs.eraseIdx i := by
  rw [filterIdx, filterIdxAux_ne_eq i xs 0]
  simp

/-- An in-bounds JavaScript write is `List.set`. -/
theorem jsSetNat_lt (xs : List (Option α)) (i : Nat) (v : Option α)
    (h : i < xs.length) : jsSetNat xs i v = xs.set i v := by
  simp [jsSetNat, h]

/-- For `0 < i < length`, `moveTaskUp` is the double in-bounds write that
swaps positions `i - 1` and `i`. -/
theorem moveTaskUp_eq_set (u : List (Option α)) (i : Nat) (h1 : 0 < i)
    (h2 : i < u.length) :
    moveTaskUp u (i : Int) =
      (u.set (i - 1) ((u[i]?).getD none)).set i ((u[i - 1]?).getD none) := by
  have hne : (i : Int) ≠ 0 := by omega
  have p1 : (0 : Int) ≤ (i : Int) := by omega
  have p2 : (0 : Int) ≤ (i : Int) - 1 := by omega
  have e1 : ((i : Int)).toNat = i := by omega
  have e2 : ((i : Int) - 1).toNat = i - 1 := by omega
  rw [moveTaskUp, if_neg hne]
  simp only [jsGetI, jsSetI, p1, p2, if_pos, e1, e2]
  rw [jsSetNat_lt u (i - 1) _ (by omega),
    jsSetNat_lt _ i _ (by rw [List.length_set]; omega)]

/-! ## The claims -/

/-- Claim C2: the to-do add operation validates and nothing more — when the
trimmed `newTask` is empty, `handleAddTask` changes neither the task list nor
the input field; otherwise it appends the trimmed task as the last element,
keeps the existing tasks in place and in order, and clears the input. -/
theorem handleAddTask_trim_guard (ts : List String) (nt : String) :
    handleAddTask { tasks := ts, newTask := nt } =
      if jsTrim nt = "" then { tasks := ts, newTask := nt }
      else { tasks := ts ++ [jsTrim nt], newTask := "" } := by
  by_cases h : jsTrim nt = "" <;> simp [handleAddTask, h]

/-- Claim C4, counterexample: the `Counter` component of `part_012` passes
the stale snapshot `count + 1` to `setCount`, so two increments scheduled
before a re-render (both closing over the snapshot `0`) leave the count at
`1`, not `0 + 2` — the claim that every counter's increment composes to
`c + 2` is false. -/
theorem counter_increment_stale_snapshot :
    applyQueue 0 [Counter.increment 0, Counter.increment 0] ≠ 0 + 2 := by
  decide

/-- Claim C4, amended: the function-component counter's `handleIncrement`
(`part_000`) passes an updater, so two invocations scheduled before a
re-render compose to `c + 2`; the `Counter` of `part_012` passes the value
`count + 1` computed from the rendered snapshot, so two invocations
scheduled before a re-render both write the same value and leave the count
at `c + 1`. -/
theorem increment_queue_behaviour (c : Int) :
    applyQueue c [handleIncrement, handleIncrement] = c + 2 ∧
    applyQueue c [Counter.increment c, Counter.increment c] = c + 1 := by
  constructor <;> simp [applyQueue, applyUpdate, handleIncrement, Counter.increment]
  omega

/-- Claim C5: each of the three delete handlers is an immutable positional
removal — it returns the list with exactly the element at the given index
removed and the relative order of the others preserved (`List.eraseIdx`),
the input list itself being untouched (the handlers are pure functions of
it). -/
theorem delete_handlers_erase_index (ts : List String) (cs : List Car)
    (fs : List String) (i : Nat) :
    handleDeleteTask ts i = ts.eraseIdx i ∧
    handleRemoveCar cs i = cs.eraseIdx i ∧
    handleRemoveFood fs i = fs.eraseIdx i :=
  ⟨filterIdx_ne_eq_eraseIdx i ts, filterIdx_ne_eq_eraseIdx i cs,
    filterIdx_ne_eq_eraseIdx i fs⟩

/-- Claim C7: each change handler of the car-details component updates
exactly its own field of the `Car` object and leaves the other two fields
unchanged. -/
theorem car_handlers_update_single_field (car : Car) (s : String) :
    handleYearChange s car = { year := jsNumber s, make := car.make, model := car.model } ∧
    handleMakeChange s car = { year := car.year, make := s, model := car.model } ∧
    handleModelChange s car = { year := car.year, make := car.make, model := s } :=
  ⟨rfl, rfl, rfl⟩

/-- Claim C8: the window-size effect registers exactly the
`('resize', handleResize)` listener, and its cleanup removes that same
registration, so — the pair not being registered beforehand, as on mount —
running the effect and then the cleanup is the identity on the window's
listener list. -/
theorem windowSizeEffect_cleanup_identity (ls : List Listener)
    (h : resizeListener ∉ ls) :
    windowSizeEffect ls = ls ++ [resizeListener] ∧
    windowSizeCleanup (windowSizeEffect ls) = ls := by
  have he : windowSizeEffect ls = ls ++ [resizeListener] := by
    simp [windowSizeEffect, addEventListener, h]
  refine ⟨he, ?_⟩
  rw [he]
  simp only [windowSizeCleanup, removeEventListener, List.filter_append]
  have h1 : List.filter (fun x => decide ¬(x = resizeListener)) ls = ls := by
    rw [List.filter_eq_self]
    intro a ha
    have hne : a ≠ resizeListener := fun e => h (e ▸ ha)
    simp [hne]
  have h2 : List.filter (fun x => decide ¬(x = resizeListener)) [resizeListener] = [] := by
    simp
  rw [h1, h2, List.append_nil]

/-- Witness for claim C8 at the mount scenario: the empty listener list. -/
theorem windowSizeEffect_cleanup_identity_witness :
    windowSizeEffect [] = [] ++ [resizeListener] ∧
    windowSizeCleanup (windowSizeEffect []) = [] :=
  windowSizeEffect_cleanup_identity [] (by decide)

/-- Claim C9: `moveTaskUp` is a guarded adjacent swap and an involution on
valid indices — index `0` leaves the tasks unchanged, and for `1 ≤ i <
length` it exchanges the slots at `i - 1` and `i`, leaves every other slot
unchanged (in particular no slot becomes `undefined`), and applying it twice
at the same index restores the original list. -/
theorem moveTaskUp_guarded_swap_involution (ts : List String) (i : Nat)
    (hi1 : 1 ≤ i) (hi2 : i < ts.length) :
    moveTaskUp (ts.map some) 0 = ts.map some ∧
    (moveTaskUp (ts.map some) (i : Int))[i - 1]? = (ts[i]?).map some ∧
    (moveTaskUp (ts.map some) (i : Int))[i]? = (ts[i - 1]?).map some ∧
    (∀ j : Nat, j ≠ i - 1 → j ≠ i →
      (moveTaskUp (ts.map some) (i : Int))[j]? = (ts[j]?).map some) ∧
    moveTaskUp (moveTaskUp (ts.map some) (i : Int)) (i : Int) = ts.map some := by
  obtain ⟨a, ha⟩ : ∃ a, ts[i]? = some a := ⟨_, List.getElem?_eq_getElem hi2⟩
  obtain ⟨b, hb⟩ : ∃ b, ts[i - 1]? = some b :=
    ⟨_, List.getElem?_eq_getElem (by omega)⟩
  have hua : (ts.map some)[i]? = some (some a) := by
    rw [List.getElem?_map, ha]; rfl
  have hub : (ts.map some)[i - 1]? = some (some b) := by
    rw [List.getElem?_map, hb]; rfl
  have hiu : i < (ts.map some).length := by simpa using hi2
  have hiu1 : i - 1 < (ts.map some).length := by simpa using (by omega : i - 1 < ts.length)
  have hne1 : i ≠ i - 1 := by omega
  have hkey := moveTaskUp_eq_set (ts.map some) i (by omega) hiu
  simp only [hua, hub, Option.getD_some] at hkey
  have hr1 : (moveTaskUp (ts.map some) (i : Int))[i - 1]? = some (some a) := by
    rw [hkey, List.getElem?_set_ne hne1, List.getElem?_set]
    simp only [if_pos rfl]
    simp
    omega
  have hr2 : (moveTaskUp (ts.map some) (i : Int))[i]? = some (some b) := by
    rw [hkey, List.getElem?_set]
    simp only [if_pos rfl]
    simp
    omega
  refine ⟨?_, ?_, ?_, ?_, ?_⟩
  · rw [moveTaskUp, if_pos rfl]
  · rw [hr1, ha]; rfl
  · rw [hr2, hb]; rfl
  · intro j hj1 hj2
    rw [hkey, List.getElem?_set_ne (Ne.symm hj2), List.getElem?_set_ne (Ne.symm hj1),
      List.getElem?_map]
  · have hriu : i < (moveTaskUp (ts.map some) (i : Int)).length := by
      rw [hkey]; simpa [List.length_set] using hiu
    have hkey2 := moveTaskUp_eq_set (moveTaskUp (ts.map some) (i : Int)) i (by omega) hriu
    simp only [hr1, hr2, Option.getD_some] at hkey2
    rw [hkey2, hkey]
    apply List.ext_getElem?
    intro n
    by_cases hn1 : n = i
    · subst hn1
      rw [List.getElem?_set]
      simp only [if_pos rfl, List.length_set, hiu, if_true, hua]
    · by_cases hn2 : n = i - 1
      · subst hn2
        rw [List.getElem?_set_ne (Ne.symm (by omega : i - 1 ≠ i)),
          List.getElem?_set]
        simp only [if_pos rfl, List.length_set, hiu1, if_true, hub]
      · rw [List.getElem?_set_ne (fun e => hn1 e.symm),
          List.getElem?_set_ne (fun e => hn2 e.symm),
          List.getElem?_set_ne (fun e => hn1 e.symm),
          List.getElem?_set_ne (fun e => hn2 e.symm)]

/-- Witness for claim C9 at the concrete list `["a", "b", "c"]` and index 1. -/
theorem moveTaskUp_guarded_swap_involution_witness :
    moveTaskUp ((["a", "b", "c"] : List String).map some) 0 =
      (["a", "b", "c"] : List String).map some ∧
    (moveTaskUp ((["a", "b", "c"] : List String).map some) ((1 : Nat) : Int))[1 - 1]? =
      ((["a", "b", "c"] : List String)[1]?).map some ∧
    (moveTaskUp ((["a", "b", "c"] : List String).map some) ((1 : Nat) : Int))[1]? =
      ((["a", "b", "c"] : List String)[1 - 1]?).map some ∧
    (∀ j : Nat, j ≠ 1 - 1 → j ≠ 1 →
      (moveTaskUp ((["a", "b", "c"] : List String).map some) ((1 : Nat) : Int))[j]? =
        ((["a", "b", "c"] : List String)[j]?).map some) ∧
    moveTaskUp (moveTaskUp ((["a", "b", "c"] : List String).map some) ((1 : Nat) : Int))
      ((1 : Nat) : Int) = (["a", "b", "c"] : List String).map some :=
  moveTaskUp_guarded_swap_involution ["a", "b", "c"] 1 (by decide) (by decide)

/-- Claim C3, the failing input: on the three-task list of the component's
initial state, `moveTaskDown` at the last valid index 2 does not permute the
tasks — the unreachable `index === -1` guard lets the swap read past the end,
append a duplicate of the last task and leave an `undefined` hole at
position 2, so the result has length 4, not 3. -/
theorem moveTaskDown_last_index_bug :
    moveTaskDown ((["Wake up", "Brush Teeth", "Eat Breakfast"] : List String).map some) 2 =
      [some "Wake up", some "Brush Teeth", none, some "Eat Breakfast"] ∧
    (moveTaskDown ((["Wake up", "Brush Teeth", "Eat Breakfast"] : List String).map some) 2).length ≠
      (["Wake up", "Brush Teeth", "Eat Breakfast"] : List String).length := by
  constructor <;> decide

/-- Claim C10: `handleAddCar` appends the car built from the three form
fields as the last element of the inventory (no existing entry modified or
removed), clears `carMake` and `carModel`, and resets `carYear` to the
current calendar year (the value `new Date().getFullYear()` supplies,
passed in as `y`). -/
theorem handleAddCar_appends_and_clears (y : Int) (s : CarInvState) :
    handleAddCar y s =
      { cars := s.cars ++ [{ year := s.carYear, make := s.carMake, model := s.carModel }],
        carYear := y, carMake := "", carModel := "" } :=
  rfl

/-- Claim C1, counterexample: not every form input the example components
render is controlled — on the food-list component's initial state, the
`foodInput` text input is rendered with no `value` binding and no change
handler (`handleAddFood` reads and clears it through
`document.getElementById` instead). -/
theorem food_input_uncontrolled :
    ∃ c ∈ renderFoodInputs ["Apple", "Banana", "Orange"],
      c.controlled = false := by
  refine ⟨{ binding := .unbound, onChange := none }, ?_, rfl⟩
  simp [renderFoodInputs]

/-- Claim C1, amended: every form input rendered by the example components
except the food-list one is controlled — in the order form, the to-do list,
the car-details form, the car-inventory form and the color picker, each
input's displayed value (string, number, or checked flag for the radios)
equals the corresponding state value and its change handler writes
`event.target.value` back into that state field — while the food-list
component's single text input is uncontrolled. -/
theorem controlled_inputs_amended (s : OrderFormState) (t : ToDoState)
    (car : Car) (inv : CarInvState) (color : String) (v : String)
    (fs : List String) :
    (renderOrderForm s).map RenderedControl.binding =
      [.strVal s.name, .numVal s.quantity, .strVal s.comment, .strVal s.payment,
       .checkedFlag (s.shipping == "Pickup"), .checkedFlag (s.shipping == "Delivery")] ∧
    (renderOrderForm s).all (fun c => c.controlled) = true ∧
    handleNameChange v s = { s with name := v } ∧
    handleQuantityChange v s = { s with quantity := jsNumber v } ∧
    handleCommentChange v s = { s with comment := v } ∧
    handlePaymentChange v s = { s with payment := v } ∧
    handleShippingChange v s = { s with shipping := v } ∧
    (renderToDoInputs t).map RenderedControl.binding = [.strVal t.newTask] ∧
    (renderToDoInputs t).all (fun c => c.controlled) = true ∧
    handleInputChange v t = { t with newTask := v } ∧
    (renderCarDetailsInputs car).map RenderedControl.binding =
      [.numVal car.year, .strVal car.make, .strVal car.model] ∧
    (renderCarDetailsInputs car).all (fun c => c.controlled) = true ∧
    handleYearChange v car = { car with year := jsNumber v } ∧
    handleMakeChange v car = { car with make := v } ∧
    handleModelChange v car = { car with model := v } ∧
    (renderCarInvInputs inv).map RenderedControl.binding =
      [.numVal inv.carYear, .strVal inv.carMake, .strVal inv.carModel] ∧
    (renderCarInvInputs inv).all (fun c => c.controlled) = true ∧
    handleCarYearChange v inv = { inv with carYear := jsNumber v } ∧
    handleCarMakeChange v inv = { inv with carMake := v } ∧
    handleCarModelChange v inv = { inv with carModel := v } ∧
    (renderColorPicker color).map RenderedControl.binding = [.strVal color] ∧
    (renderColorPicker color).all (fun c => c.controlled) = true ∧
    handleColorChange v color = v ∧
    (renderFoodInputs fs).all (fun c => c.controlled) = false := by
  and_intros <;> rfl

/-- Claim C6, counterexample: the `ToDoList` keys are not determined by the
item itself — no per-item key function reproduces its keyed rendering, since
the task `"Brush Teeth"` gets key 0 when rendered in `["Brush Teeth"]` but
key 1 when rendered in `["Wake up", "Brush Teeth"]`. -/
theorem toDoList_keys_not_item_determined :
    ¬ ∃ keyOf : String → Nat, ∀ ts : List String,
        toDoKeyedItems ts = ts.map (fun t => (keyOf t, t)) := by
  rintro ⟨keyOf, hk⟩
  have h1 := hk ["Brush Teeth"]
  have h2 := hk ["Wake up", "Brush Teeth"]
  simp [toDoKeyedItems, List.enum, List.enumFrom, Prod.ext_iff] at h1 h2
  omega

/-- Claim C6, amended: `List.tsx` keys each rendered item by the item's own
`id` field, so an item keeps its key in whatever list it appears, and within
the `App`'s concrete `fruits` and `groceries` lists the keys are pairwise
distinct; the `ToDoList`, the car-inventory list and the food list, by
contrast, key items by their array index — those keys are exactly
`0, ..., length - 1`, pairwise distinct within one render but determined by
position, not by the item. -/
theorem list_keys_amended (items : List FoodItem) (it : FoodItem)
    (h : it ∈ items) (ts : List String) (cs : List Car) (fs : List String) :
    (it.id, it) ∈ listKeyedItems items ∧
    (toDoKeyedItems ts).map Prod.fst = List.range ts.length ∧
    ((toDoKeyedItems ts).map Prod.fst).Nodup ∧
    (carKeyedItems cs).map Prod.fst = List.range cs.length ∧
    ((carKeyedItems cs).map Prod.fst).Nodup ∧
    (foodKeyedItems fs).map Prod.fst = List.range fs.length ∧
    ((foodKeyedItems fs).map Prod.fst).Nodup ∧
    ((listKeyedItems fruits).map Prod.fst).Nodup ∧
    ((listKeyedItems groceries).map Prod.fst).Nodup := by
  refine ⟨List.mem_map_of_mem _ h, ?_, ?_, ?_, ?_, ?_, ?_, ?_, ?_⟩
  · rw [toDoKeyedItems, List.enum_map_fst]
  · rw [toDoKeyedItems, List.enum_map_fst]
    exact List.nodup_range ts.length
  · rw [carKeyedItems, List.enum_map_fst]
  · rw [carKeyedItems, List.enum_map_fst]
    exact List.nodup_range cs.length
  · rw [foodKeyedItems, List.enum_map_fst]
  · rw [foodKeyedItems, List.enum_map_fst]
    exact List.nodup_range fs.length
  · decide
  · decide

/-- Witness for claim C6 at the `fruits` list, its first item, a one-task
to-do list, a one-car inventory and a one-item food list. -/
theorem list_keys_amended_witness :
    ((1 : Int), ({ id := 1, name := "Apple", calories := 95 } : FoodItem)) ∈
      listKeyedItems fruits ∧
    (toDoKeyedItems ["Wake up"]).map Prod.fst =
      List.range (["Wake up"] : List String).length ∧
    ((toDoKeyedItems ["Wake up"]).map Prod.fst).Nodup ∧
    (carKeyedItems [{ year := 2020, make := "Toyota", model := "Corolla" }]).map Prod.fst =
      List.range ([{ year := 2020, make := "Toyota", model := "Corolla" }] : List Car).length ∧
    ((carKeyedItems [{ year := 2020, make := "Toyota", model := "Corolla" }]).map Prod.fst).Nodup ∧
    (foodKeyedItems ["Apple"]).map Prod.fst =
      List.range (["Apple"] : List String).length ∧
    ((foodKeyedItems ["Apple"]).map Prod.fst).Nodup ∧
    ((listKeyedItems fruits).map Prod.fst).Nodup ∧
    ((listKeyedItems groceries).map Prod.fst).Nodup :=
  list_keys_amended fruits { id := 1, name := "Apple", calories := 95 }
    (by decide) ["Wake up"] [{ year := 2020, make := "Toyota", model := "Corolla" }]
    ["Apple"]

end RSN
